import Mathlib

/-!
Verification development for the CWA 36-hour weather dashboard
(`weather_dashboard.py`). The core under study is `to_dataframe`, which
reshapes the nested F-C0032-001 JSON response into a flat, typed, sorted
table, together with the `CWA_KEY` credential gate of the top-level script.

The JSON data model is embedded structurally; Python `dict` lookups,
`KeyError`/`IndexError` exceptions and pandas column coercions are made
explicit via `Option`/`Except`.
-/

instance {ε α : Type} [DecidableEq ε] [DecidableEq α] :
    DecidableEq (Except ε α) := fun
  | .error e, .error f =>
    match decEq e f with
    | isTrue h => isTrue (congrArg Except.error h)
    | isFalse h => isFalse fun hh => h (Except.error.inj hh)
  | .error _, .ok _ => isFalse fun hh => Except.noConfusion hh
  | .ok _, .error _ => isFalse fun hh => Except.noConfusion hh
  | .ok a, .ok b =>
    match decEq a b with
    | isTrue h => isTrue (congrArg Except.ok h)
    | isFalse h => isFalse fun hh => h (Except.ok.inj hh)

/-- The nested `parameter` object of a time slot: `{"parameterName": ...}`. -/
structure Parameter where
  parameterName : String
deriving DecidableEq, Repr, Inhabited

/-- One entry of an element's `time` array:
`{"startTime": ..., "endTime": ..., "parameter": {...}}`. -/
structure TimeSlot where
  startTime : String
  endTime : String
  parameter : Parameter
deriving DecidableEq, Repr, Inhabited

/-- One entry of a location's `weatherElement` array. -/
structure WeatherElement where
  elementName : String
  time : List TimeSlot
deriving DecidableEq, Repr, Inhabited

/-- One entry of `records.location`. -/
structure Location where
  locationName : String
  weatherElement : List WeatherElement
deriving DecidableEq, Repr, Inhabited

/-- The `records` object of the response. -/
structure Records where
  location : List Location
deriving DecidableEq, Repr, Inhabited

/-- The whole JSON response handed to `to_dataframe`. -/
structure Response where
  records : Records
deriving DecidableEq, Repr, Inhabited

/-- Errors that can escape the transform.  `keyError` models Python's
`KeyError` (a missing `dict` key, i.e. the spec's `SchemaError`, or a missing
pandas column), `indexError` models `IndexError` (list index out of range),
`parseError` models a `pandas.to_datetime` failure (the spec's `ParseError`). -/
inductive TransformError where
  | keyError (key : String)
  | indexError
  | parseError (s : String)
deriving DecidableEq, Repr

/-- Line 40: `elements = {el["elementName"]: el["time"] for el in
loc["weatherElement"]}` followed by a `dict` lookup.  A Python dict
comprehension lets later entries with the same key overwrite earlier ones, so
the lookup searches the tail first. -/
def dictLookup : List WeatherElement → String → Option (List TimeSlot)
  | [], _ => none
  | el :: rest, name =>
    match dictLookup rest name with
    | some ts => some ts
    | none => if el.elementName = name then some el.time else none

/-- `elements[name][i]`: `KeyError` if `name` is absent from the mapping,
`IndexError` if the slot list is shorter than `i + 1`. -/
def elemAt (els : List WeatherElement) (name : String) (i : Nat) :
    Except TransformError TimeSlot :=
  match dictLookup els name with
  | none => .error (.keyError name)
  | some ts =>
    match ts[i]? with
    | none => .error .indexError
    | some t => .ok t

/-- One row of the intermediate `rows` list (lines 45-54), before the pandas
column coercions: all eight values are still strings.  Field `pop` is column
`PoP(%)`, `minT` is `MinT(°C)`, `maxT` is `MaxT(°C)`. -/
structure RawRow where
  location : String
  startTime : String
  endTime : String
  pop : String
  wx : String
  ci : String
  minT : String
  maxT : String
deriving DecidableEq, Repr, Inhabited

/-- The row dict built at lines 45-54 for loop index `i`, with `t` the i-th
`PoP` slot.  The five `elements[...][i]` accesses happen in source order
(`PoP`, `Wx`, `CI`, `MinT`, `MaxT`); the first raised exception propagates. -/
def buildRow (els : List WeatherElement) (name : String) (t : TimeSlot)
    (i : Nat) : Except TransformError RawRow :=
  match elemAt els "PoP" i with
  | .error e => .error e
  | .ok p =>
    match elemAt els "Wx" i with
    | .error e => .error e
    | .ok w =>
      match elemAt els "CI" i with
      | .error e => .error e
      | .ok c =>
        match elemAt els "MinT" i with
        | .error e => .error e
        | .ok mn =>
          match elemAt els "MaxT" i with
          | .error e => .error e
          | .ok mx =>
            .ok { location := name, startTime := t.startTime,
                  endTime := t.endTime,
                  pop := p.parameter.parameterName,
                  wx := w.parameter.parameterName,
                  ci := c.parameter.parameterName,
                  minT := mn.parameter.parameterName,
                  maxT := mx.parameter.parameterName }

/-- The `for i, t in enumerate(times)` loop (line 44), carrying the running
index; rows are appended in loop order. -/
def emitRows (els : List WeatherElement) (name : String) :
    List TimeSlot → Nat → Except TransformError (List RawRow)
  | [], _ => .ok []
  | t :: rest, i =>
    match buildRow els name t i with
    | .error e => .error e
    | .ok r =>
      match emitRows els name rest (i + 1) with
      | .error e => .error e
      | .ok more => .ok (r :: more)

/-- Lines 37-55 for a single location: look up the `PoP` time axis
(`KeyError` when absent) and run the row loop over it. -/
def buildLocRows (loc : Location) : Except TransformError (List RawRow) :=
  match dictLookup loc.weatherElement "PoP" with
  | none => .error (.keyError "PoP")
  | some times => emitRows loc.weatherElement loc.locationName times 0

/-- The outer `for loc in locations` loop (lines 36-55): per-location row
lists are concatenated in input order. -/
def buildRows : List Location → Except TransformError (List RawRow)
  | [] => .ok []
  | loc :: rest =>
    match buildLocRows loc with
    | .error e => .error e
    | .ok rs =>
      match buildRows rest with
      | .error e => .error e
      | .ok more => .ok (rs ++ more)

/-- A parsed timestamp value, the result of `pd.to_datetime` on an upstream
time string. -/
structure Timestamp where
  year : Nat
  month : Nat
  day : Nat
  hour : Nat
  minute : Nat
  second : Nat
deriving DecidableEq, Repr, Inhabited

/-- The value of a decimal digit character. -/
def digitVal? (c : Char) : Option Nat :=
  if c.isDigit then some (c.toNat - 48) else none

/-- Two decimal digits. -/
def num2 (a b : Char) : Option Nat := do
  let x ← digitVal? a
  let y ← digitVal? b
  pure (10 * x + y)

/-- Four decimal digits. -/
def num4 (a b c d : Char) : Option Nat := do
  let x ← num2 a b
  let y ← num2 c d
  pure (100 * x + y)

/-- Model of `pd.to_datetime` (lines 60-61) on the upstream-guaranteed
`"YYYY-MM-DD HH:MM:SS"` format: any string not of that shape (or with
out-of-range fields) fails, and no fallback format is attempted. -/
def parseTimestamp (s : String) : Option Timestamp :=
  match s.toList with
  | [y1, y2, y3, y4, '-', m1, m2, '-', d1, d2, ' ',
     h1, h2, ':', n1, n2, ':', s1, s2] => do
    let y ← num4 y1 y2 y3 y4
    let mo ← num2 m1 m2
    let d ← num2 d1 d2
    let h ← num2 h1 h2
    let mi ← num2 n1 n2
    let se ← num2 s1 s2
    if 1 ≤ mo ∧ mo ≤ 12 ∧ 1 ≤ d ∧ d ≤ 31 ∧ h ≤ 23 ∧ mi ≤ 59 ∧ se ≤ 59 then
      some ⟨y, mo, d, h, mi, se⟩
    else
      none
  | _ => none

/-- Numeric value of a digit string (most significant digit first). -/
def natOfDigits (l : List Char) : Nat :=
  l.foldl (fun n c => 10 * n + (c.toNat - 48)) 0

/-- Model of `pd.to_numeric(..., errors="coerce")` (lines 62-64): an optional
sign, an integer part and an optional fractional part parse to a rational;
anything else (e.g. `"NA"`) coerces to a missing value (`none`). -/
def parseNumeric (s : String) : Option Rat :=
  let cs := s.toList
  let sgn : Int := match cs with
    | '-' :: _ => -1
    | _ => 1
  let body : List Char := match cs with
    | '-' :: rest => rest
    | '+' :: rest => rest
    | _ => cs
  let ip := body.takeWhile (fun c => c ≠ '.')
  let rest := body.dropWhile (fun c => c ≠ '.')
  match rest with
  | [] =>
    if ip.all Char.isDigit ∧ ip ≠ [] then
      some (mkRat (sgn * natOfDigits ip) 1)
    else none
  | _ :: fp =>
    if ip.all Char.isDigit ∧ fp.all Char.isDigit ∧ (ip ≠ [] ∨ fp ≠ []) then
      some (mkRat (sgn * (natOfDigits ip * 10 ^ fp.length + natOfDigits fp))
        (10 ^ fp.length))
    else
      none

/-- One row of the final table, after the column coercions of lines 60-64:
timestamps are parsed, the three numeric columns are nullable rationals,
`Wx`/`CI` stay descriptive strings. -/
structure ForecastRow where
  location : String
  startTime : Timestamp
  endTime : Timestamp
  pop : Option Rat
  wx : String
  ci : String
  minT : Option Rat
  maxT : Option Rat
deriving DecidableEq, Repr

/-- The column coercions of lines 60-64 applied to one row.  pandas coerces
column-by-column (all `startTime`s, then all `endTime`s, then the numerics);
modelling it row-by-row accepts exactly the same tables and produces the same
accepted output — only which malformed string is reported first can differ. -/
def coerceRow (r : RawRow) : Except TransformError ForecastRow :=
  match parseTimestamp r.startTime with
  | none => .error (.parseError r.startTime)
  | some st =>
    match parseTimestamp r.endTime with
    | none => .error (.parseError r.endTime)
    | some et =>
      .ok { location := r.location, startTime := st, endTime := et,
            pop := parseNumeric r.pop, wx := r.wx, ci := r.ci,
            minT := parseNumeric r.minT, maxT := parseNumeric r.maxT }

/-- Lines 60-64 over the whole row list. -/
def coerceRows : List RawRow → Except TransformError (List ForecastRow)
  | [] => .ok []
  | r :: rest =>
    match coerceRow r with
    | .error e => .error e
    | .ok fr =>
      match coerceRows rest with
      | .error e => .error e
      | .ok more => .ok (fr :: more)

/-- Chronological (lexicographic) order on parsed timestamps, the order
`pd.DataFrame.sort_values` uses on a datetime column. -/
def Timestamp.lexLE (a b : Timestamp) : Prop :=
  a.year < b.year ∨ (a.year = b.year ∧
    (a.month < b.month ∨ (a.month = b.month ∧
      (a.day < b.day ∨ (a.day = b.day ∧
        (a.hour < b.hour ∨ (a.hour = b.hour ∧
          (a.minute < b.minute ∨ (a.minute = b.minute ∧
            a.second ≤ b.second)))))))))

instance : DecidableRel Timestamp.lexLE := fun a b => by
  unfold Timestamp.lexLE
  infer_instance

/-- The `sort_values(["location", "startTime"])` key order of line 66:
location name ascending — lexicographic code-point order on the character
sequence, which is Python's string comparison (and Lean's `String.lt`, by
`String.lt_iff_toList_lt`) — then startTime ascending. -/
def RowLE (a b : ForecastRow) : Prop :=
  a.location.toList < b.location.toList ∨
    (a.location = b.location ∧ a.startTime.lexLE b.startTime)

instance : DecidableRel RowLE := fun a b => by
  unfold RowLE
  infer_instance

/-- `to_dataframe` (lines 31-67).  Builds the row list, applies the pandas
column coercions and sorts.  When the row list is empty, `pd.DataFrame([])`
has no columns at all, so the column access `df["startTime"]` at line 60
raises `KeyError`; with at least one row every column is present, since every
emitted row dict carries all eight keys.  `sort_values` on multiple keys is a
stable sort (numpy lexsort), modelled by the stable `List.insertionSort`. -/
def to_dataframe (data : Response) : Except TransformError (List ForecastRow) :=
  match buildRows data.records.location with
  | .error e => .error e
  | .ok rows =>
    if rows.isEmpty then .error (.keyError "startTime")
    else
      match coerceRows rows with
      | .error e => .error e
      | .ok coerced => .ok (coerced.insertionSort RowLE)

/-- Line 7: `CWA_KEY = os.environ.get("CWA_KEY", "")`, with the process
environment as an association list. -/
def CWA_KEY (env : List (String × String)) : String :=
  (env.lookup "CWA_KEY").getD ""

/-- What one dashboard render cycle ends in. -/
inductive DashOutcome where
  /-- Line 17-18: `st.error(...)` about the missing key, then `st.stop()`. -/
  | configError
  /-- Lines 75-77: the `except` branch around fetch + transform. -/
  | loadError
  /-- The dashboard body renders from the transformed table. -/
  | rendered (table : List ForecastRow)
deriving DecidableEq

/-- The top-level script flow (lines 7-77): the credential gate at lines
16-18 runs before `fetch_forecast` is ever called; the fetch itself is
opaque, so its result is a parameter.  The second component records whether
`fetch_forecast()` (and hence any network call) was invoked. -/
def dashboardMain (env : List (String × String))
    (fetchResult : Except String Response) : DashOutcome × Bool :=
  if CWA_KEY env = "" then (.configError, false)
  else
    match fetchResult with
    | .error _ => (.loadError, true)
    | .ok data =>
      match to_dataframe data with
      | .error _ => (.loadError, true)
      | .ok df => (.rendered df, true)

/-- Number of `PoP` slots a location contributes (its authoritative time-axis
length), zero when `PoP` is absent. -/
def popLen (loc : Location) : Nat :=
  ((dictLookup loc.weatherElement "PoP").getD []).length

/-- `listExtends base ext` holds when `ext` is `base` followed by zero or
more extra slots. -/
def listExtends : List TimeSlot → List TimeSlot → Bool
  | [], _ => true
  | _ :: _, [] => false
  | t :: ts, u :: us => if t = u then listExtends ts us else false

/-- One weather element of the second response versus the first: same
element name; for `PoP` the identical slot list, for the other elements the
original list (already at least `n` slots long, `n` the location's `PoP`
length) possibly extended by extra slots — which therefore sit at indices at
or beyond `n`. -/
def slotExt (n : Nat) (e eNew : WeatherElement) : Bool :=
  if eNew.elementName = e.elementName then
    if e.elementName = "PoP" then decide (eNew.time = e.time)
    else listExtends e.time eNew.time && decide (n ≤ e.time.length)
  else false

/-- `slotExt` pointwise over two `weatherElement` lists. -/
def elsExt (n : Nat) : List WeatherElement → List WeatherElement → Bool
  | [], [] => true
  | e :: es, f :: fs => slotExt n e f && elsExt n es fs
  | _, _ => false

/-- Two locations that agree except for extra non-`PoP` slots beyond the
`PoP` axis length. -/
def locExt (loc locNew : Location) : Bool :=
  decide (locNew.locationName = loc.locationName) &&
    elsExt (popLen loc) loc.weatherElement locNew.weatherElement

/-- `locExt` pointwise over two location lists. -/
def locsExt : List Location → List Location → Bool
  | [], [] => true
  | l :: ls, m :: ms => locExt l m && locsExt ls ms
  | _, _ => false

/-- Two responses that are identical except that, per location, some
non-`PoP` elements of the second carry additional slots at indices at or
beyond that location's `PoP` length. -/
def respExt (resp respNew : Response) : Bool :=
  locsExt resp.records.location respNew.records.location

/-! ### Concrete fixture responses, used to instantiate the theorems -/

/-- A time slot with the given times and `parameter.parameterName`. -/
def mkSlot (st et v : String) : TimeSlot :=
  { startTime := st, endTime := et, parameter := { parameterName := v } }

/-- A complete one-slot location named "B". -/
def locB : Location :=
  { locationName := "B",
    weatherElement :=
      [ { elementName := "Wx",
          time := [mkSlot "2026-01-01 00:00:00" "2026-01-01 06:00:00" "Sunny"] },
        { elementName := "PoP",
          time := [mkSlot "2026-01-01 00:00:00" "2026-01-01 06:00:00" "10"] },
        { elementName := "CI",
          time := [mkSlot "2026-01-01 00:00:00" "2026-01-01 06:00:00" "Comfy"] },
        { elementName := "MinT",
          time := [mkSlot "2026-01-01 00:00:00" "2026-01-01 06:00:00" "20"] },
        { elementName := "MaxT",
          time := [mkSlot "2026-01-01 00:00:00" "2026-01-01 06:00:00" "25"] } ] }

/-- The coerced row `to_dataframe` produces for `locB`. -/
def rowB : ForecastRow :=
  { location := "B", startTime := ⟨2026, 1, 1, 0, 0, 0⟩,
    endTime := ⟨2026, 1, 1, 6, 0, 0⟩, pop := some (mkRat 10 1), wx := "Sunny",
    ci := "Comfy", minT := some (mkRat 20 1), maxT := some (mkRat 25 1) }

/-- Like `locB` but with a non-numeric `MaxT` value `"NA"`. -/
def locNA : Location :=
  { locationName := "A",
    weatherElement :=
      [ { elementName := "Wx",
          time := [mkSlot "2026-01-01 00:00:00" "2026-01-01 06:00:00" "Rainy"] },
        { elementName := "PoP",
          time := [mkSlot "2026-01-01 00:00:00" "2026-01-01 06:00:00" "80"] },
        { elementName := "CI",
          time := [mkSlot "2026-01-01 00:00:00" "2026-01-01 06:00:00" "Cold"] },
        { elementName := "MinT",
          time := [mkSlot "2026-01-01 00:00:00" "2026-01-01 06:00:00" "12"] },
        { elementName := "MaxT",
          time := [mkSlot "2026-01-01 00:00:00" "2026-01-01 06:00:00" "NA"] } ] }

/-- Like `locB`, but the `Wx` slot carries a malformed `startTime` string;
only its `parameter.parameterName` is ever read, its times are ignored. -/
def locWxBadTime : Location :=
  { locationName := "B",
    weatherElement :=
      [ { elementName := "Wx",
          time := [mkSlot "bogus" "2026-01-01 06:00:00" "Sunny"] },
        { elementName := "PoP",
          time := [mkSlot "2026-01-01 00:00:00" "2026-01-01 06:00:00" "10"] },
        { elementName := "CI",
          time := [mkSlot "2026-01-01 00:00:00" "2026-01-01 06:00:00" "Comfy"] },
        { elementName := "MinT",
          time := [mkSlot "2026-01-01 00:00:00" "2026-01-01 06:00:00" "20"] },
        { elementName := "MaxT",
          time := [mkSlot "2026-01-01 00:00:00" "2026-01-01 06:00:00" "25"] } ] }

/-- A location whose only element is an empty `PoP` axis: `CI` (and the rest)
are missing, yet the row loop never runs, so no lookup of them is attempted. -/
def locEmptyPoP : Location :=
  { locationName := "C",
    weatherElement := [ { elementName := "PoP", time := [] } ] }

/-- A location with a non-empty `PoP` axis and no `CI` element. -/
def locNoCI : Location :=
  { locationName := "D",
    weatherElement :=
      [ { elementName := "Wx",
          time := [mkSlot "2026-01-01 00:00:00" "2026-01-01 06:00:00" "Sunny"] },
        { elementName := "PoP",
          time := [mkSlot "2026-01-01 00:00:00" "2026-01-01 06:00:00" "10"] },
        { elementName := "MinT",
          time := [mkSlot "2026-01-01 00:00:00" "2026-01-01 06:00:00" "20"] },
        { elementName := "MaxT",
          time := [mkSlot "2026-01-01 00:00:00" "2026-01-01 06:00:00" "25"] } ] }

/-- A location whose `PoP` axis has two slots but whose `Wx` list has only
one. -/
def locShortWx : Location :=
  { locationName := "E",
    weatherElement :=
      [ { elementName := "Wx",
          time := [mkSlot "2026-01-01 00:00:00" "2026-01-01 06:00:00" "Sunny"] },
        { elementName := "PoP",
          time := [mkSlot "2026-01-01 00:00:00" "2026-01-01 06:00:00" "10",
                   mkSlot "2026-01-01 06:00:00" "2026-01-01 12:00:00" "20"] },
        { elementName := "CI",
          time := [mkSlot "2026-01-01 00:00:00" "2026-01-01 06:00:00" "Comfy",
                   mkSlot "2026-01-01 06:00:00" "2026-01-01 12:00:00" "Comfy"] },
        { elementName := "MinT",
          time := [mkSlot "2026-01-01 00:00:00" "2026-01-01 06:00:00" "20",
                   mkSlot "2026-01-01 06:00:00" "2026-01-01 12:00:00" "21"] },
        { elementName := "MaxT",
          time := [mkSlot "2026-01-01 00:00:00" "2026-01-01 06:00:00" "25",
                   mkSlot "2026-01-01 06:00:00" "2026-01-01 12:00:00" "26"] } ] }

/-- Single-location response around `locB`. -/
def respB : Response := { records := { location := [locB] } }

/-- Two-location response: a complete location plus `locEmptyPoP`, which
lacks `CI`. -/
def respEmptyPoPNoCI : Response :=
  { records := { location := [locB, locEmptyPoP] } }

/-- Response whose `Wx` slot carries a malformed `startTime`. -/
def respWxBadTime : Response := { records := { location := [locWxBadTime] } }

/-- Response with a `"NA"` numeric value. -/
def respNA : Response := { records := { location := [locNA, locB] } }

/-- Response containing the `CI`-less location `locNoCI`. -/
def respNoCI : Response := { records := { location := [locB, locNoCI] } }

/-- Response containing the short-`Wx` location `locShortWx`. -/
def respShortWx : Response := { records := { location := [locB, locShortWx] } }

/-- `locB` with an extra `Wx` slot appended beyond the `PoP` axis length. -/
def locBExtraWx : Location :=
  { locationName := "B",
    weatherElement :=
      [ { elementName := "Wx",
          time := [mkSlot "2026-01-01 00:00:00" "2026-01-01 06:00:00" "Sunny",
                   mkSlot "2026-01-01 06:00:00" "2026-01-01 12:00:00" "Hazy"] },
        { elementName := "PoP",
          time := [mkSlot "2026-01-01 00:00:00" "2026-01-01 06:00:00" "10"] },
        { elementName := "CI",
          time := [mkSlot "2026-01-01 00:00:00" "2026-01-01 06:00:00" "Comfy"] },
        { elementName := "MinT",
          time := [mkSlot "2026-01-01 00:00:00" "2026-01-01 06:00:00" "20"] },
        { elementName := "MaxT",
          time := [mkSlot "2026-01-01 00:00:00" "2026-01-01 06:00:00" "25"] } ] }

/-- Response around `locBExtraWx`. -/
def respBExtraWx : Response := { records := { location := [locBExtraWx] } }

/-- Like `locB` but the `PoP` slot's own `startTime` is malformed, so it
reaches the emitted rows and the timestamp coercion. -/
def locBadPoPTime : Location :=
  { locationName := "B",
    weatherElement :=
      [ { elementName := "Wx",
          time := [mkSlot "2026-01-01 00:00:00" "2026-01-01 06:00:00" "Sunny"] },
        { elementName := "PoP",
          time := [mkSlot "2026/01/01" "2026-01-01 06:00:00" "10"] },
        { elementName := "CI",
          time := [mkSlot "2026-01-01 00:00:00" "2026-01-01 06:00:00" "Comfy"] },
        { elementName := "MinT",
          time := [mkSlot "2026-01-01 00:00:00" "2026-01-01 06:00:00" "20"] },
        { elementName := "MaxT",
          time := [mkSlot "2026-01-01 00:00:00" "2026-01-01 06:00:00" "25"] } ] }

/-- Response whose `PoP` slot carries the malformed `startTime`. -/
def respBadPoPTime : Response :=
  { records := { location := [locBadPoPTime] } }

/-- The raw rows `to_dataframe` emits for `respBadPoPTime`. -/
def rowsBadPoP : List RawRow :=
  [ { location := "B", startTime := "2026/01/01",
      endTime := "2026-01-01 06:00:00", pop := "10", wx := "Sunny",
      ci := "Comfy", minT := "20", maxT := "25" } ]

/-- The coerced row of `locNA`: the `"NA"` `MaxT` became a missing value. -/
def rowNAfc : ForecastRow :=
  { location := "A", startTime := ⟨2026, 1, 1, 0, 0, 0⟩,
    endTime := ⟨2026, 1, 1, 6, 0, 0⟩, pop := some (mkRat 80 1), wx := "Rainy",
    ci := "Cold", minT := some (mkRat 12 1), maxT := none }

/-- The coerced (pre-sort) rows of `respNA`; already in sorted order. -/
def preNA : List ForecastRow := [rowNAfc, rowB]

/-- The raw rows `to_dataframe` emits for `respNA` before the coercions. -/
def rowsNA : List RawRow :=
  [ { location := "A", startTime := "2026-01-01 00:00:00",
      endTime := "2026-01-01 06:00:00", pop := "80", wx := "Rainy",
      ci := "Cold", minT := "12", maxT := "NA" },
    { location := "B", startTime := "2026-01-01 00:00:00",
      endTime := "2026-01-01 06:00:00", pop := "10", wx := "Sunny",
      ci := "Comfy", minT := "20", maxT := "25" } ]

/-! ### Supporting lemmas -/

theorem emitRows_ok_length {els : List WeatherElement} {nm : String} :
    ∀ {ts : List TimeSlot} {k : Nat} {rows : List RawRow},
      emitRows els nm ts k = .ok rows → rows.length = ts.length := by
  intro ts
  induction ts with
  | nil =>
    intro k rows h
    simp only [emitRows] at h
    cases h
    rfl
  | cons t rest ih =>
    intro k rows h
    simp only [emitRows] at h
    cases hb : buildRow els nm t k with
    | error e => rw [hb] at h; cases h
    | ok r =>
      rw [hb] at h
      cases he : emitRows els nm rest (k + 1) with
      | error e => rw [he] at h; cases h
      | ok more =>
        rw [he] at h
        cases h
        simp [ih he]

theorem buildLocRows_ok_length {loc : Location} {rows : List RawRow}
    (h : buildLocRows loc = .ok rows) : rows.length = popLen loc := by
  unfold buildLocRows at h
  unfold popLen
  cases hl : dictLookup loc.weatherElement "PoP" with
  | none => rw [hl] at h; cases h
  | some times =>
    rw [hl] at h
    simpa using emitRows_ok_length h

theorem buildRows_ok_length :
    ∀ {locs : List Location} {rows : List RawRow},
      buildRows locs = .ok rows → rows.length = (locs.map popLen).sum := by
  intro locs
  induction locs with
  | nil =>
    intro rows h
    simp only [buildRows] at h
    cases h
    rfl
  | cons loc rest ih =>
    intro rows h
    simp only [buildRows] at h
    cases hb : buildLocRows loc with
    | error e => rw [hb] at h; cases h
    | ok rs =>
      rw [hb] at h
      cases hr : buildRows rest with
      | error e => rw [hr] at h; cases h
      | ok more =>
        rw [hr] at h
        cases h
        simp [buildLocRows_ok_length hb, ih hr]

theorem coerceRows_ok_length :
    ∀ {rows : List RawRow} {frs : List ForecastRow},
      coerceRows rows = .ok frs → frs.length = rows.length := by
  intro rows
  induction rows with
  | nil =>
    intro frs h
    simp only [coerceRows] at h
    cases h
    rfl
  | cons r rest ih =>
    intro frs h
    simp only [coerceRows] at h
    cases hc : coerceRow r with
    | error e => rw [hc] at h; cases h
    | ok fr =>
      rw [hc] at h
      cases hr : coerceRows rest with
      | error e => rw [hr] at h; cases h
      | ok more =>
        rw [hr] at h
        cases h
        simp [ih hr]

/-- Inversion of a successful `to_dataframe` run into its three stages. -/
theorem to_dataframe_ok_inv {resp : Response} {t : List ForecastRow}
    (h : to_dataframe resp = .ok t) :
    ∃ rows coerced, buildRows resp.records.location = .ok rows ∧
      rows ≠ [] ∧ coerceRows rows = .ok coerced ∧
      t = coerced.insertionSort RowLE := by
  unfold to_dataframe at h
  cases hb : buildRows resp.records.location with
  | error e => rw [hb] at h; cases h
  | ok rows =>
    rw [hb] at h
    dsimp only at h
    by_cases hemp : rows.isEmpty
    · rw [if_pos hemp] at h; cases h
    · rw [if_neg hemp] at h
      cases hc : coerceRows rows with
      | error e => rw [hc] at h; cases h
      | ok coerced =>
        rw [hc] at h
        cases h
        exact ⟨rows, coerced, rfl, by simpa [List.isEmpty_iff] using hemp, hc, rfl⟩

/-! ### C9 and C8 -/

/-- C9: a response with an empty `records.location` sequence is rejected:
the empty row list gives a column-free `pd.DataFrame`, and the coercion step
`df["startTime"] = ...` raises `KeyError` instead of returning an empty
table. -/
theorem to_dataframe_empty_locations (resp : Response)
    (h : resp.records.location = []) :
    to_dataframe resp = .error (.keyError "startTime") := by
  simp [to_dataframe, h, buildRows]

/-- Witness for C9: the empty-location response is rejected. -/
theorem to_dataframe_empty_locations_witness :
    to_dataframe { records := { location := [] } } =
      .error (.keyError "startTime") :=
  to_dataframe_empty_locations { records := { location := [] } } rfl

/-- C8: with `CWA_KEY` absent from the environment (or set to the empty
string), the dashboard halts at the credential gate with a configuration
error and `fetch_forecast` is never invoked (second component `false`),
whatever a fetch would have returned. -/
theorem credential_gate (env : List (String × String))
    (fr : Except String Response)
    (h : env.lookup "CWA_KEY" = none ∨ env.lookup "CWA_KEY" = some "") :
    dashboardMain env fr = (.configError, false) := by
  have hk : CWA_KEY env = "" := by
    rcases h with h | h <;> simp [CWA_KEY, h]
  simp [dashboardMain, hk]

/-- Witness for C8: empty environment, arbitrary fetch outcome. -/
theorem credential_gate_witness :
    dashboardMain [] (.error "boom") = (.configError, false) :=
  credential_gate [] (.error "boom") (Or.inl rfl)

/-! ### C2: row count -/

/-- C2: whenever `to_dataframe` returns a table, its row count is the sum
over the locations of that location's `PoP` slot count; no row is dropped or
deduplicated along the coercion and sort stages. -/
theorem to_dataframe_row_count (resp : Response) (t : List ForecastRow)
    (h : to_dataframe resp = .ok t) :
    t.length = (resp.records.location.map popLen).sum := by
  obtain ⟨rows, coerced, hb, -, hc, ht⟩ := to_dataframe_ok_inv h
  rw [ht, List.length_insertionSort, coerceRows_ok_length hc,
    buildRows_ok_length hb]

/-- Witness for C2: a one-location, one-slot response yields one row. -/
theorem to_dataframe_row_count_witness :
    (ForecastRow.mk "B" ⟨2026, 1, 1, 0, 0, 0⟩ ⟨2026, 1, 1, 6, 0, 0⟩
        (some (mkRat 10 1)) "Sunny" "Comfy" (some (mkRat 20 1))
        (some (mkRat 25 1)) :: []).length =
      (respB.records.location.map popLen).sum :=
  to_dataframe_row_count respB _ (by decide)

/-! ### C5: numeric coercion tolerance -/

theorem coerceRow_ok_inv {r : RawRow} {fr : ForecastRow}
    (h : coerceRow r = .ok fr) :
    fr.location = r.location ∧ parseTimestamp r.startTime = some fr.startTime ∧
      parseTimestamp r.endTime = some fr.endTime ∧
      fr.pop = parseNumeric r.pop ∧ fr.wx = r.wx ∧ fr.ci = r.ci ∧
      fr.minT = parseNumeric r.minT ∧ fr.maxT = parseNumeric r.maxT := by
  unfold coerceRow at h
  cases hs : parseTimestamp r.startTime with
  | none => rw [hs] at h; cases h
  | some st =>
    rw [hs] at h
    cases he : parseTimestamp r.endTime with
    | none => rw [he] at h; cases h
    | some et =>
      rw [he] at h
      cases h
      refine ⟨rfl, ?_, ?_, rfl, rfl, rfl, rfl, rfl⟩
      · simp [hs]
      · simp [he]

theorem coerceRows_ok_of :
    ∀ (rows : List RawRow),
      (∀ r ∈ rows, (parseTimestamp r.startTime).isSome ∧
        (parseTimestamp r.endTime).isSome) →
      ∃ frs, coerceRows rows = .ok frs := by
  intro rows
  induction rows with
  | nil => exact fun _ => ⟨[], rfl⟩
  | cons r rest ih =>
    intro h
    obtain ⟨hs, he⟩ := h r (List.mem_cons_self r rest)
    obtain ⟨st, hst⟩ := Option.isSome_iff_exists.mp hs
    obtain ⟨et, het⟩ := Option.isSome_iff_exists.mp he
    obtain ⟨frs, hfrs⟩ := ih fun x hx => h x (List.mem_cons_of_mem r hx)
    exact ⟨{ location := r.location, startTime := st, endTime := et,
             pop := parseNumeric r.pop, wx := r.wx, ci := r.ci,
             minT := parseNumeric r.minT, maxT := parseNumeric r.maxT } :: frs,
           by simp [coerceRows, coerceRow, hst, het, hfrs]⟩

theorem coerceRows_mem :
    ∀ {rows : List RawRow} {frs : List ForecastRow},
      coerceRows rows = .ok frs → ∀ {r : RawRow}, r ∈ rows →
        ∃ fr ∈ frs, coerceRow r = .ok fr := by
  intro rows
  induction rows with
  | nil => intro frs _ r hr; cases hr
  | cons x rest ih =>
    intro frs h r hr
    simp only [coerceRows] at h
    cases hc : coerceRow x with
    | error e => rw [hc] at h; cases h
    | ok fr =>
      rw [hc] at h
      cases hrest : coerceRows rest with
      | error e => rw [hrest] at h; cases h
      | ok more =>
        rw [hrest] at h
        cases h
        rcases List.mem_cons.mp hr with rfl | hr
        · exact ⟨fr, List.mem_cons_self fr more, hc⟩
        · obtain ⟨fr', hfr', hok'⟩ := ih hrest hr
          exact ⟨fr', List.mem_cons_of_mem fr hfr', hok'⟩

/-- C5: a non-numeric `PoP`/`MinT`/`MaxT` value is no error.  `"NA"` coerces
to a missing value; whenever the emitted rows' timestamps are well formed,
the transform succeeds, keeps every row, and each output row carries exactly
the numeric coercion of its raw values with `Wx`/`CI`/location untouched. -/
theorem numeric_coercion_tolerance (resp : Response) (rows : List RawRow)
    (h1 : buildRows resp.records.location = .ok rows) (h2 : rows ≠ [])
    (hts : ∀ r ∈ rows, (parseTimestamp r.startTime).isSome ∧
      (parseTimestamp r.endTime).isSome) :
    parseNumeric "NA" = none ∧
    ∃ t, to_dataframe resp = .ok t ∧ t.length = rows.length ∧
      ∀ r ∈ rows, ∃ fr ∈ t, fr.location = r.location ∧ fr.wx = r.wx ∧
        fr.ci = r.ci ∧ fr.pop = parseNumeric r.pop ∧
        fr.minT = parseNumeric r.minT ∧ fr.maxT = parseNumeric r.maxT := by
  refine ⟨by decide, ?_⟩
  obtain ⟨frs, hc⟩ := coerceRows_ok_of rows hts
  have hto : to_dataframe resp = .ok (frs.insertionSort RowLE) := by
    unfold to_dataframe
    rw [h1]
    dsimp only
    rw [if_neg (by simpa [List.isEmpty_iff] using h2), hc]
  refine ⟨_, hto, ?_, ?_⟩
  · rw [List.length_insertionSort, coerceRows_ok_length hc]
  · intro r hr
    obtain ⟨fr, hfr, hok⟩ := coerceRows_mem hc hr
    obtain ⟨f1, _, _, f4, f5, f6, f7, f8⟩ := coerceRow_ok_inv hok
    exact ⟨fr, (List.mem_insertionSort _).mpr hfr, f1, f5, f6, f4, f7, f8⟩

/-- Witness for C5, at a response whose `MaxT` value is `"NA"`. -/
theorem numeric_coercion_tolerance_witness :
    parseNumeric "NA" = none ∧
    ∃ t, to_dataframe respNA = .ok t ∧ t.length = rowsNA.length ∧
      ∀ r ∈ rowsNA, ∃ fr ∈ t, fr.location = r.location ∧ fr.wx = r.wx ∧
        fr.ci = r.ci ∧ fr.pop = parseNumeric r.pop ∧
        fr.minT = parseNumeric r.minT ∧ fr.maxT = parseNumeric r.maxT :=
  numeric_coercion_tolerance respNA rowsNA (by decide) (by decide) (by decide)

/-! ### C4: timestamp strictness -/

theorem coerceRow_error_inv {r : RawRow} {e : TransformError}
    (h : coerceRow r = .error e) :
    ∃ s, e = .parseError s ∧ parseTimestamp s = none := by
  unfold coerceRow at h
  cases hs : parseTimestamp r.startTime with
  | none =>
    rw [hs] at h
    cases h
    exact ⟨r.startTime, rfl, hs⟩
  | some st =>
    rw [hs] at h
    cases he : parseTimestamp r.endTime with
    | none =>
      rw [he] at h
      cases h
      exact ⟨r.endTime, rfl, he⟩
    | some et =>
      rw [he] at h
      cases h

theorem coerceRows_error_of_bad :
    ∀ {rows : List RawRow},
      (∃ r ∈ rows, parseTimestamp r.startTime = none ∨
        parseTimestamp r.endTime = none) →
      ∃ s, coerceRows rows = .error (.parseError s) ∧ parseTimestamp s = none := by
  intro rows
  induction rows with
  | nil => rintro ⟨r, hr, -⟩; cases hr
  | cons x rest ih =>
    rintro ⟨r, hr, hbad⟩
    cases hc : coerceRow x with
    | error e =>
      obtain ⟨s, rfl, hs⟩ := coerceRow_error_inv hc
      exact ⟨s, by simp [coerceRows, hc], hs⟩
    | ok fr =>
      have hx : r ∈ rest := by
        rcases List.mem_cons.mp hr with rfl | hmem
        · obtain ⟨-, h2, h3, -⟩ := coerceRow_ok_inv hc
          rcases hbad with hb | hb
          · rw [hb] at h2; cases h2
          · rw [hb] at h3; cases h3
        · exact hmem
      obtain ⟨s, hrec, hs⟩ := ih ⟨r, hx, hbad⟩
      exact ⟨s, by simp [coerceRows, hc, hrec], hs⟩

/-- C4 (amended): when row emission succeeds and some emitted row carries a
malformed `startTime` or `endTime` string, the whole transform fails with a
`ParseError` naming a malformed string, and no table (partial or otherwise)
is returned.  (As the counterexample shows, malformed time strings sitting
in non-`PoP` slots never reach the emitted rows and cause no failure.) -/
theorem malformed_timestamp_fails (resp : Response) (rows : List RawRow)
    (h1 : buildRows resp.records.location = .ok rows)
    (hbad : ∃ r ∈ rows, parseTimestamp r.startTime = none ∨
      parseTimestamp r.endTime = none) :
    ∃ s, to_dataframe resp = .error (.parseError s) ∧ parseTimestamp s = none := by
  have hne : rows ≠ [] := by
    rintro rfl
    obtain ⟨r, hr, -⟩ := hbad
    cases hr
  obtain ⟨s, hcr, hs⟩ := coerceRows_error_of_bad hbad
  refine ⟨s, ?_, hs⟩
  unfold to_dataframe
  rw [h1]
  dsimp only
  rw [if_neg (by simpa [List.isEmpty_iff] using hne), hcr]

/-- Witness for C4 (amended): a malformed `PoP` `startTime` aborts the
transform with a `ParseError`. -/
theorem malformed_timestamp_fails_witness :
    ∃ s, to_dataframe respBadPoPTime = .error (.parseError s) ∧
      parseTimestamp s = none :=
  malformed_timestamp_fails respBadPoPTime rowsBadPoP (by decide) (by decide)

/-- C4 counterexample: a response containing a malformed `startTime` string
(in a `Wx` slot) for which `to_dataframe` nevertheless returns a table —
only the `PoP` slots' time strings are ever read, so the claim as stated
(over every `startTime`/`endTime` string in the response) is false. -/
theorem malformed_timestamp_counterexample :
    parseTimestamp ((locWxBadTime.weatherElement[0]!).time[0]!).startTime = none ∧
    to_dataframe respWxBadTime = .ok [rowB] := by
  decide

/-! ### C6 and C7: missing / short elements -/

theorem buildRow_ok_inv {els : List WeatherElement} {nm : String}
    {t : TimeSlot} {i : Nat} {r : RawRow} (h : buildRow els nm t i = .ok r) :
    (∃ p, elemAt els "PoP" i = .ok p) ∧ (∃ w, elemAt els "Wx" i = .ok w) ∧
      (∃ c, elemAt els "CI" i = .ok c) ∧ (∃ mn, elemAt els "MinT" i = .ok mn) ∧
      ∃ mx, elemAt els "MaxT" i = .ok mx := by
  unfold buildRow at h
  cases h1 : elemAt els "PoP" i with
  | error e => rw [h1] at h; cases h
  | ok p =>
    rw [h1] at h
    cases h2 : elemAt els "Wx" i with
    | error e => rw [h2] at h; cases h
    | ok w =>
      rw [h2] at h
      cases h3 : elemAt els "CI" i with
      | error e => rw [h3] at h; cases h
      | ok c =>
        rw [h3] at h
        cases h4 : elemAt els "MinT" i with
        | error e => rw [h4] at h; cases h
        | ok mn =>
          rw [h4] at h
          cases h5 : elemAt els "MaxT" i with
          | error e => rw [h5] at h; cases h
          | ok mx =>
            exact ⟨⟨p, rfl⟩, ⟨w, rfl⟩, ⟨c, rfl⟩, ⟨mn, rfl⟩, ⟨mx, rfl⟩⟩

theorem buildRow_error_of_elemAt {els : List WeatherElement} (nm : String)
    (t : TimeSlot) {i : Nat} {name : String} {e : TransformError}
    (hname : name ∈ (["PoP", "Wx", "CI", "MinT", "MaxT"] : List String))
    (he : elemAt els name i = .error e) :
    ∃ e', buildRow els nm t i = .error e' := by
  cases hb : buildRow els nm t i with
  | error e' => exact ⟨e', rfl⟩
  | ok r =>
    exfalso
    obtain ⟨⟨p, h1⟩, ⟨w, h2⟩, ⟨c, h3⟩, ⟨mn, h4⟩, ⟨mx, h5⟩⟩ := buildRow_ok_inv hb
    simp only [List.mem_cons, List.not_mem_nil, or_false] at hname
    rcases hname with rfl | rfl | rfl | rfl | rfl
    · rw [h1] at he; cases he
    · rw [h2] at he; cases he
    · rw [h3] at he; cases he
    · rw [h4] at he; cases he
    · rw [h5] at he; cases he

theorem buildRows_error_of_mem :
    ∀ {locs : List Location} {loc : Location}, loc ∈ locs →
      (∃ e, buildLocRows loc = .error e) → ∃ e, buildRows locs = .error e := by
  intro locs
  induction locs with
  | nil => intro loc h; cases h
  | cons x rest ih =>
    rintro loc hmem ⟨e, he⟩
    rcases List.mem_cons.mp hmem with rfl | hmem
    · exact ⟨e, by simp [buildRows, he]⟩
    · cases hx : buildLocRows x with
      | error ex => exact ⟨ex, by simp [buildRows, hx]⟩
      | ok rs =>
        obtain ⟨e', he'⟩ := ih hmem ⟨e, he⟩
        exact ⟨e', by simp [buildRows, hx, he']⟩

theorem to_dataframe_error_of_buildRows {resp : Response} {e : TransformError}
    (h : buildRows resp.records.location = .error e) :
    to_dataframe resp = .error e := by
  simp [to_dataframe, h]

theorem elemAt_error_kind {els : List WeatherElement} {n : String} {i : Nat}
    {e : TransformError} (h : elemAt els n i = .error e) :
    (∃ key, e = .keyError key) ∨ e = .indexError := by
  unfold elemAt at h
  cases hl : dictLookup els n with
  | none =>
    rw [hl] at h
    cases h
    exact Or.inl ⟨n, rfl⟩
  | some ts =>
    rw [hl] at h
    dsimp only at h
    cases hg : ts[i]? with
    | none =>
      rw [hg] at h
      cases h
      exact Or.inr rfl
    | some t =>
      rw [hg] at h
      cases h

theorem buildRow_error_kind {els : List WeatherElement} {nm : String}
    {t : TimeSlot} {i : Nat} {e : TransformError}
    (h : buildRow els nm t i = .error e) :
    (∃ key, e = .keyError key) ∨ e = .indexError := by
  unfold buildRow at h
  cases h1 : elemAt els "PoP" i with
  | error e1 => rw [h1] at h; cases h; exact elemAt_error_kind h1
  | ok p =>
    rw [h1] at h
    cases h2 : elemAt els "Wx" i with
    | error e2 => rw [h2] at h; cases h; exact elemAt_error_kind h2
    | ok w =>
      rw [h2] at h
      cases h3 : elemAt els "CI" i with
      | error e3 => rw [h3] at h; cases h; exact elemAt_error_kind h3
      | ok c =>
        rw [h3] at h
        cases h4 : elemAt els "MinT" i with
        | error e4 => rw [h4] at h; cases h; exact elemAt_error_kind h4
        | ok mn =>
          rw [h4] at h
          cases h5 : elemAt els "MaxT" i with
          | error e5 => rw [h5] at h; cases h; exact elemAt_error_kind h5
          | ok mx => rw [h5] at h; cases h

theorem emitRows_error_kind {els : List WeatherElement} {nm : String} :
    ∀ {ts : List TimeSlot} {k : Nat} {e : TransformError},
      emitRows els nm ts k = .error e →
      (∃ key, e = .keyError key) ∨ e = .indexError := by
  intro ts
  induction ts with
  | nil =>
    intro k e h
    simp only [emitRows] at h
    cases h
  | cons t rest ih =>
    intro k e h
    simp only [emitRows] at h
    cases hb : buildRow els nm t k with
    | error eb => rw [hb] at h; cases h; exact buildRow_error_kind hb
    | ok r =>
      rw [hb] at h
      cases hr : emitRows els nm rest (k + 1) with
      | error er => rw [hr] at h; cases h; exact ih hr
      | ok more => rw [hr] at h; cases h

theorem buildLocRows_error_kind {loc : Location} {e : TransformError}
    (h : buildLocRows loc = .error e) :
    (∃ key, e = .keyError key) ∨ e = .indexError := by
  unfold buildLocRows at h
  cases hl : dictLookup loc.weatherElement "PoP" with
  | none =>
    rw [hl] at h
    cases h
    exact Or.inl ⟨"PoP", rfl⟩
  | some times =>
    rw [hl] at h
    exact emitRows_error_kind h

theorem buildRows_error_kind :
    ∀ {locs : List Location} {e : TransformError},
      buildRows locs = .error e →
      (∃ key, e = .keyError key) ∨ e = .indexError := by
  intro locs
  induction locs with
  | nil =>
    intro e h
    simp only [buildRows] at h
    cases h
  | cons loc rest ih =>
    intro e h
    simp only [buildRows] at h
    cases hb : buildLocRows loc with
    | error eb => rw [hb] at h; cases h; exact buildLocRows_error_kind hb
    | ok rs =>
      rw [hb] at h
      cases hr : buildRows rest with
      | error er => rw [hr] at h; cases h; exact ih hr
      | ok more => rw [hr] at h; cases h

/-- C6 (amended): a location lacking one of the five required elements makes
the whole transform fail, provided the location's `PoP` axis is present and
non-empty, or `PoP` itself is the absent element (then the error is
`KeyError "PoP"` at the time-axis lookup).  The error is a `KeyError` (the
spec's `SchemaError`) or an `IndexError` — never any other kind — and when
`PoP` is present it is raised during construction of that location's first
row, before any row of that location is emitted; it is never raised while
the name-to-slots mapping is built, which cannot fail.  (Which of the two it
is depends on the elements accessed before the missing one in source order:
e.g. an empty sibling `Wx` list yields `IndexError` before the missing
`CI`'s `KeyError` is reached.)  A location whose `PoP` axis is empty never
looks up the other elements at all (see the counterexample). -/
theorem missing_element_fails (resp : Response) (loc : Location)
    (hmem : loc ∈ resp.records.location)
    (h : dictLookup loc.weatherElement "PoP" = none ∨
      ((∃ name ∈ (["Wx", "CI", "MinT", "MaxT"] : List String),
          dictLookup loc.weatherElement name = none) ∧
        ∃ t ts, dictLookup loc.weatherElement "PoP" = some (t :: ts))) :
    (∃ e, buildLocRows loc = .error e ∧
      ((∃ key, e = .keyError key) ∨ e = .indexError) ∧
      (dictLookup loc.weatherElement "PoP" = none → e = .keyError "PoP") ∧
      ∀ t ts, dictLookup loc.weatherElement "PoP" = some (t :: ts) →
        buildRow loc.weatherElement loc.locationName t 0 = .error e) ∧
    ∃ e, to_dataframe resp = .error e ∧
      ((∃ key, e = .keyError key) ∨ e = .indexError) := by
  have hloc : ∃ e, buildLocRows loc = .error e ∧
      ((∃ key, e = .keyError key) ∨ e = .indexError) ∧
      (dictLookup loc.weatherElement "PoP" = none → e = .keyError "PoP") ∧
      ∀ t ts, dictLookup loc.weatherElement "PoP" = some (t :: ts) →
        buildRow loc.weatherElement loc.locationName t 0 = .error e := by
    rcases h with hp | ⟨⟨name, hname, hnone⟩, t, ts, hp⟩
    · refine ⟨.keyError "PoP", by simp [buildLocRows, hp], Or.inl ⟨"PoP", rfl⟩,
        fun _ => rfl, fun t' ts' h' => ?_⟩
      rw [hp] at h'
      cases h'
    · have he : elemAt loc.weatherElement name 0 = .error (.keyError name) := by
        simp [elemAt, hnone]
      have hname5 : name ∈ (["PoP", "Wx", "CI", "MinT", "MaxT"] : List String) := by
        simp only [List.mem_cons, List.not_mem_nil, or_false] at hname ⊢
        tauto
      obtain ⟨e, hbr⟩ :=
        buildRow_error_of_elemAt loc.locationName t hname5 he
      refine ⟨e, by simp [buildLocRows, hp, emitRows, hbr],
        buildRow_error_kind hbr, fun hcontra => ?_, fun t' ts' h' => ?_⟩
      · rw [hp] at hcontra
        cases hcontra
      · rw [hp] at h'
        injection h' with hc
        injection hc with hc1 hc2
        subst hc1
        exact hbr
  have hloc2 := hloc
  obtain ⟨e0, he0, -, -, -⟩ := hloc2
  obtain ⟨e', hE⟩ := buildRows_error_of_mem hmem ⟨e0, he0⟩
  exact ⟨hloc, e', to_dataframe_error_of_buildRows hE, buildRows_error_kind hE⟩

/-- Witness for C6 (amended): a location with one `PoP` slot and no `CI`
element aborts the whole transform with a `KeyError`/`IndexError` raised in
its first row's construction. -/
theorem missing_element_fails_witness :
    (∃ e, buildLocRows locNoCI = .error e ∧
      ((∃ key, e = .keyError key) ∨ e = .indexError) ∧
      (dictLookup locNoCI.weatherElement "PoP" = none → e = .keyError "PoP") ∧
      ∀ t ts, dictLookup locNoCI.weatherElement "PoP" = some (t :: ts) →
        buildRow locNoCI.weatherElement locNoCI.locationName t 0 = .error e) ∧
    ∃ e, to_dataframe respNoCI = .error e ∧
      ((∃ key, e = .keyError key) ∨ e = .indexError) :=
  missing_element_fails respNoCI locNoCI (by decide)
    (Or.inr ⟨⟨"CI", by decide, by decide⟩,
      mkSlot "2026-01-01 00:00:00" "2026-01-01 06:00:00" "10", [], by decide⟩)

/-- C6 counterexample: a response with a location that lacks the `CI`
element (and three others) on which `to_dataframe` succeeds — its `PoP` axis
is empty, so the row loop never runs and no lookup of `CI` is attempted.
The failure, when it happens, is also not raised while the mapping is built:
building the mapping never fails. -/
theorem missing_element_counterexample :
    dictLookup locEmptyPoP.weatherElement "CI" = none ∧
    to_dataframe respEmptyPoPNoCI = .ok [rowB] := by
  decide

theorem emitRows_error_at {els : List WeatherElement} {nm : String} :
    ∀ {ts : List TimeSlot} {k j : Nat} (hj : j < ts.length),
      (∃ e, buildRow els nm (ts.get ⟨j, hj⟩) (k + j) = .error e) →
      ∃ e, emitRows els nm ts k = .error e := by
  intro ts
  induction ts with
  | nil => intro k j hj; exact absurd hj (Nat.not_lt_zero j)
  | cons t rest ih =>
    intro k j hj hbad
    cases hb : buildRow els nm t k with
    | error e => exact ⟨e, by simp [emitRows, hb]⟩
    | ok r =>
      cases j with
      | zero =>
        obtain ⟨e, he⟩ := hbad
        have he0 : buildRow els nm t k = .error e := by simpa using he
        rw [hb] at he0
        cases he0
      | succ i =>
        obtain ⟨e, he⟩ := hbad
        have hj' : i < rest.length := Nat.lt_of_succ_lt_succ hj
        have hk : k + (i + 1) = k + 1 + i := by omega
        rw [hk] at he
        have he' : buildRow els nm (rest.get ⟨i, hj'⟩) (k + 1 + i) = .error e := by
          simpa using he
        obtain ⟨e', hrec⟩ := ih hj' ⟨e, he'⟩
        exact ⟨e', by simp [emitRows, hb, hrec]⟩

/-- C7: when a location's `PoP` axis has more slots than one of the other
required elements, the transform fails (`IndexError` at the short element's
lookup, or an earlier error) instead of emitting that location's rows: the
location contributes no rows and no table is returned at all. -/
theorem short_element_fails (resp : Response) (loc : Location)
    (hmem : loc ∈ resp.records.location) (name : String)
    (hname : name ∈ (["Wx", "CI", "MinT", "MaxT"] : List String))
    (pop other : List TimeSlot)
    (hp : dictLookup loc.weatherElement "PoP" = some pop)
    (ho : dictLookup loc.weatherElement name = some other)
    (hlen : other.length < pop.length) :
    (∃ e, buildLocRows loc = .error e) ∧ ∃ e, to_dataframe resp = .error e := by
  have he : elemAt loc.weatherElement name other.length = .error .indexError := by
    simp [elemAt, ho, List.getElem?_eq_none (Nat.le_refl other.length)]
  have hname5 : name ∈ (["PoP", "Wx", "CI", "MinT", "MaxT"] : List String) := by
    simp only [List.mem_cons, List.not_mem_nil, or_false] at hname ⊢
    tauto
  obtain ⟨e, hbr⟩ := buildRow_error_of_elemAt loc.locationName
    (pop.get ⟨other.length, hlen⟩) hname5 he
  have hbr0 : buildRow loc.weatherElement loc.locationName
      (pop.get ⟨other.length, hlen⟩) (0 + other.length) = .error e := by
    rw [Nat.zero_add]
    exact hbr
  have hloc : ∃ e, buildLocRows loc = .error e := by
    obtain ⟨e', hrec⟩ := emitRows_error_at hlen ⟨e, hbr0⟩
    exact ⟨e', by simp [buildLocRows, hp, hrec]⟩
  obtain ⟨e'', hE⟩ := buildRows_error_of_mem hmem hloc
  exact ⟨hloc, e'', to_dataframe_error_of_buildRows hE⟩

/-- Witness for C7: a location whose `Wx` list has one slot against two
`PoP` slots aborts the whole transform. -/
theorem short_element_fails_witness :
    (∃ e, buildLocRows locShortWx = .error e) ∧
      ∃ e, to_dataframe respShortWx = .error e :=
  short_element_fails respShortWx locShortWx (by decide) "Wx" (by decide)
    [mkSlot "2026-01-01 00:00:00" "2026-01-01 06:00:00" "10",
     mkSlot "2026-01-01 06:00:00" "2026-01-01 12:00:00" "20"]
    [mkSlot "2026-01-01 00:00:00" "2026-01-01 06:00:00" "Sunny"]
    (by decide) (by decide) (by decide)

/-! ### C3: sort order and stability -/

theorem Timestamp.lexLE_refl (a : Timestamp) : a.lexLE a := by
  unfold Timestamp.lexLE
  omega

theorem Timestamp.lexLE_trans {a b c : Timestamp} (h1 : a.lexLE b)
    (h2 : b.lexLE c) : a.lexLE c := by
  unfold Timestamp.lexLE at *
  omega

theorem Timestamp.lexLE_total (a b : Timestamp) : a.lexLE b ∨ b.lexLE a := by
  unfold Timestamp.lexLE
  omega

instance : IsTrans ForecastRow RowLE := ⟨by
  intro a b c hab hbc
  rcases hab with h1 | ⟨h1, h1t⟩ <;> rcases hbc with h2 | ⟨h2, h2t⟩
  · exact Or.inl (lt_trans h1 h2)
  · refine Or.inl ?_
    rw [← h2]
    exact h1
  · refine Or.inl ?_
    rw [h1]
    exact h2
  · exact Or.inr ⟨h1.trans h2, Timestamp.lexLE_trans h1t h2t⟩⟩

instance : IsTotal ForecastRow RowLE := ⟨by
  intro a b
  rcases lt_trichotomy a.location.toList b.location.toList with h | h | h
  · exact Or.inl (Or.inl h)
  · have hloc : a.location = b.location := by
      apply String.ext
      simpa [String.toList] using h
    rcases Timestamp.lexLE_total a.startTime b.startTime with ht | ht
    · exact Or.inl (Or.inr ⟨hloc, ht⟩)
    · exact Or.inr (Or.inr ⟨hloc.symm, ht⟩)
  · exact Or.inr (Or.inl h)⟩

/-- C3: a returned table is sorted by location ascending and, within equal
locations, by startTime ascending; rows with equal `(location, startTime)`
keep the relative order they were emitted in (stability). -/
theorem to_dataframe_sorted_stable (resp : Response) (rows : List RawRow)
    (pre t : List ForecastRow)
    (h1 : buildRows resp.records.location = .ok rows)
    (h2 : coerceRows rows = .ok pre)
    (h3 : to_dataframe resp = .ok t) :
    List.Sorted RowLE t ∧
      ∀ a b : ForecastRow, List.Sublist [a, b] pre →
        a.location = b.location → a.startTime = b.startTime →
        List.Sublist [a, b] t := by
  obtain ⟨rows', pre', hb', hne', hc', ht⟩ := to_dataframe_ok_inv h3
  rw [h1] at hb'
  injection hb' with hr
  subst hr
  rw [h2] at hc'
  injection hc' with hp
  subst hp
  subst ht
  constructor
  · exact List.sorted_insertionSort RowLE pre
  · intro a b hsub hloc hst
    have hab : RowLE a b := Or.inr ⟨hloc, by
      rw [hst]
      exact Timestamp.lexLE_refl _⟩
    exact List.pair_sublist_insertionSort hab hsub

/-- Witness for C3, at a two-location response. -/
theorem to_dataframe_sorted_stable_witness :
    List.Sorted RowLE preNA ∧
      ∀ a b : ForecastRow, List.Sublist [a, b] preNA →
        a.location = b.location → a.startTime = b.startTime →
        List.Sublist [a, b] preNA :=
  to_dataframe_sorted_stable respNA rowsNA preNA preNA
    (by decide) (by decide) (by decide)

/-! ### C1: index alignment -/

theorem emitRows_eq_of_buildRow {els : List WeatherElement} {nm : String}
    (g : Nat → RawRow) :
    ∀ (ts : List TimeSlot) (k : Nat),
      (∀ j (hj : j < ts.length),
        buildRow els nm (ts.get ⟨j, hj⟩) (k + j) = .ok (g (k + j))) →
      emitRows els nm ts k = .ok ((List.range' k ts.length).map g) := by
  intro ts
  induction ts with
  | nil => intro k _; simp [emitRows]
  | cons t rest ih =>
    intro k h
    have h0 : buildRow els nm t k = .ok (g k) := by
      have h00 := h 0 (Nat.succ_pos rest.length)
      simpa using h00
    have hrec : emitRows els nm rest (k + 1) =
        .ok ((List.range' (k + 1) rest.length).map g) := by
      apply ih
      intro j hj
      have hjj := h (j + 1) (Nat.succ_lt_succ hj)
      have hidx : k + (j + 1) = k + 1 + j := by omega
      rw [hidx] at hjj
      simpa using hjj
    simp [emitRows, h0, hrec, List.range'_succ]

theorem buildRow_ok_of_lookups {els : List WeatherElement} {nm : String}
    {pops wxs cis mins maxs : List TimeSlot}
    (hp : dictLookup els "PoP" = some pops)
    (hw : dictLookup els "Wx" = some wxs)
    (hc : dictLookup els "CI" = some cis)
    (hmn : dictLookup els "MinT" = some mins)
    (hmx : dictLookup els "MaxT" = some maxs)
    {i : Nat} (hip : i < pops.length) (hiw : i < wxs.length)
    (hic : i < cis.length) (himn : i < mins.length) (himx : i < maxs.length)
    (t : TimeSlot) :
    buildRow els nm t i = .ok
      { location := nm, startTime := t.startTime, endTime := t.endTime,
        pop := (pops.get ⟨i, hip⟩).parameter.parameterName,
        wx := (wxs.get ⟨i, hiw⟩).parameter.parameterName,
        ci := (cis.get ⟨i, hic⟩).parameter.parameterName,
        minT := (mins.get ⟨i, himn⟩).parameter.parameterName,
        maxT := (maxs.get ⟨i, himx⟩).parameter.parameterName } := by
  have e1 : elemAt els "PoP" i = .ok (pops.get ⟨i, hip⟩) := by
    simp [elemAt, hp, List.getElem?_eq_getElem hip]
  have e2 : elemAt els "Wx" i = .ok (wxs.get ⟨i, hiw⟩) := by
    simp [elemAt, hw, List.getElem?_eq_getElem hiw]
  have e3 : elemAt els "CI" i = .ok (cis.get ⟨i, hic⟩) := by
    simp [elemAt, hc, List.getElem?_eq_getElem hic]
  have e4 : elemAt els "MinT" i = .ok (mins.get ⟨i, himn⟩) := by
    simp [elemAt, hmn, List.getElem?_eq_getElem himn]
  have e5 : elemAt els "MaxT" i = .ok (maxs.get ⟨i, himx⟩) := by
    simp [elemAt, hmx, List.getElem?_eq_getElem himx]
  simp [buildRow, e1, e2, e3, e4, e5]

/-- C1: for a location whose five elements all resolve and have time-slot
sequences of the same length and identical time ordering, the row-emission
stage of `to_dataframe` produces exactly one row per index `i`, in index
order: its `startTime`/`endTime` come from the i-th `PoP` slot and its five
attribute values are the `parameter.parameterName` of the i-th slot of the
respective element. -/
theorem index_alignment (loc : Location)
    (pops wxs cis mins maxs : List TimeSlot)
    (hp : dictLookup loc.weatherElement "PoP" = some pops)
    (hw : dictLookup loc.weatherElement "Wx" = some wxs)
    (hc : dictLookup loc.weatherElement "CI" = some cis)
    (hmn : dictLookup loc.weatherElement "MinT" = some mins)
    (hmx : dictLookup loc.weatherElement "MaxT" = some maxs)
    (lw : wxs.length = pops.length) (lc : cis.length = pops.length)
    (lmn : mins.length = pops.length) (lmx : maxs.length = pops.length)
    (_halign : ∀ e ∈ [wxs, cis, mins, maxs], ∀ i (h1 : i < pops.length)
      (h2 : i < e.length),
      (e.get ⟨i, h2⟩).startTime = (pops.get ⟨i, h1⟩).startTime ∧
        (e.get ⟨i, h2⟩).endTime = (pops.get ⟨i, h1⟩).endTime) :
    buildLocRows loc = .ok ((List.range pops.length).map (fun i =>
      { location := loc.locationName,
        startTime := (pops.getD i default).startTime,
        endTime := (pops.getD i default).endTime,
        pop := (pops.getD i default).parameter.parameterName,
        wx := (wxs.getD i default).parameter.parameterName,
        ci := (cis.getD i default).parameter.parameterName,
        minT := (mins.getD i default).parameter.parameterName,
        maxT := (maxs.getD i default).parameter.parameterName })) := by
  unfold buildLocRows
  rw [hp]
  rw [List.range_eq_range']
  apply emitRows_eq_of_buildRow
  intro j hj
  rw [Nat.zero_add]
  have hjw : j < wxs.length := lw ▸ hj
  have hjc : j < cis.length := lc ▸ hj
  have hjmn : j < mins.length := lmn ▸ hj
  have hjmx : j < maxs.length := lmx ▸ hj
  rw [buildRow_ok_of_lookups hp hw hc hmn hmx hj hjw hjc hjmn hjmx]
  congr 1
  simp [List.getD_eq_getElem?_getD, List.getElem?_eq_getElem, hj, hjw, hjc,
    hjmn, hjmx, List.get_eq_getElem]

/-- Witness for C1, at the complete one-slot location `locB`. -/
theorem index_alignment_witness :
    buildLocRows locB = .ok
      [{ location := "B", startTime := "2026-01-01 00:00:00",
         endTime := "2026-01-01 06:00:00", pop := "10", wx := "Sunny",
         ci := "Comfy", minT := "20", maxT := "25" }] :=
  index_alignment locB
    [mkSlot "2026-01-01 00:00:00" "2026-01-01 06:00:00" "10"]
    [mkSlot "2026-01-01 00:00:00" "2026-01-01 06:00:00" "Sunny"]
    [mkSlot "2026-01-01 00:00:00" "2026-01-01 06:00:00" "Comfy"]
    [mkSlot "2026-01-01 00:00:00" "2026-01-01 06:00:00" "20"]
    [mkSlot "2026-01-01 00:00:00" "2026-01-01 06:00:00" "25"]
    (by decide) (by decide) (by decide) (by decide) (by decide)
    rfl rfl rfl rfl (by decide)

/-! ### C10: slots beyond the PoP axis never influence the output -/

theorem listExtends_exists :
    ∀ {base ext : List TimeSlot}, listExtends base ext = true →
      ∃ extra, ext = base ++ extra := by
  intro base
  induction base with
  | nil => intro ext _; exact ⟨ext, rfl⟩
  | cons t ts ih =>
    intro ext h
    cases ext with
    | nil => simp [listExtends] at h
    | cons u us =>
      rw [listExtends] at h
      by_cases ht : t = u
      · rw [if_pos ht] at h
        obtain ⟨extra, rfl⟩ := ih h
        exact ⟨extra, by rw [ht]; rfl⟩
      · rw [if_neg ht] at h
        cases h

theorem dictLookup_elsExt {n : Nat} :
    ∀ (els els' : List WeatherElement), elsExt n els els' = true →
      ∀ name : String,
        (dictLookup els name = none ∧ dictLookup els' name = none) ∨
        ∃ ts extra, dictLookup els name = some ts ∧
          dictLookup els' name = some (ts ++ extra) ∧
          (name = "PoP" → extra = []) ∧ (name ≠ "PoP" → n ≤ ts.length) := by
  intro els
  induction els with
  | nil =>
    intro els' h name
    cases els' with
    | nil => exact Or.inl ⟨rfl, rfl⟩
    | cons f fs => simp [elsExt] at h
  | cons e es ih =>
    intro els' h name
    cases els' with
    | nil => simp [elsExt] at h
    | cons f fs =>
      simp only [elsExt, Bool.and_eq_true] at h
      obtain ⟨h1, h2⟩ := h
      have hfe : f.elementName = e.elementName := by
        by_contra hne
        simp [slotExt, hne] at h1
      rcases ih fs h2 name with ⟨hn1, hn2⟩ | ⟨ts, extra, ht1, ht2, hPoP, hnPoP⟩
      · simp only [dictLookup, hn1, hn2]
        by_cases he : e.elementName = name
        · rw [if_pos he, if_pos (hfe.trans he)]
          by_cases hP : e.elementName = "PoP"
          · have hft : f.time = e.time := by
              simpa [slotExt, hfe, hP] using h1
            refine Or.inr ⟨e.time, [], rfl, ?_, fun _ => rfl, fun hne => ?_⟩
            · rw [hft, List.append_nil]
            · exact absurd (he.symm.trans hP) hne
          · have h1' : listExtends e.time f.time = true ∧ n ≤ e.time.length := by
              simpa [slotExt, hfe, hP] using h1
            obtain ⟨hext, hlen⟩ := h1'
            obtain ⟨extra, hfx⟩ := listExtends_exists hext
            exact Or.inr ⟨e.time, extra, rfl, by rw [hfx],
              fun hPoPn => absurd (he.trans hPoPn) hP, fun _ => hlen⟩
        · rw [if_neg he, if_neg (fun hh => he (hfe.symm.trans hh))]
          exact Or.inl ⟨rfl, rfl⟩
      · simp only [dictLookup, ht1, ht2]
        exact Or.inr ⟨ts, extra, rfl, rfl, hPoP, hnPoP⟩

theorem elemAt_elsExt {n : Nat} {els els' : List WeatherElement}
    (h : elsExt n els els' = true) (name : String) {i : Nat} (hi : i < n) :
    elemAt els' name i = elemAt els name i := by
  rcases dictLookup_elsExt els els' h name with ⟨h1, h2⟩ |
    ⟨ts, extra, h1, h2, hP, hnP⟩
  · simp [elemAt, h1, h2]
  · by_cases hname : name = "PoP"
    · have hex : extra = [] := hP hname
      subst hex
      simp [elemAt, h1, h2]
    · have hlen : n ≤ ts.length := hnP hname
      have hi' : i < ts.length := lt_of_lt_of_le hi hlen
      simp [elemAt, h1, h2, List.getElem?_append_left hi']

theorem buildRow_elsExt {n : Nat} {els els' : List WeatherElement}
    (h : elsExt n els els' = true) {nm : String} {t : TimeSlot} {i : Nat}
    (hi : i < n) : buildRow els' nm t i = buildRow els nm t i := by
  unfold buildRow
  rw [elemAt_elsExt h "PoP" hi, elemAt_elsExt h "Wx" hi,
    elemAt_elsExt h "CI" hi, elemAt_elsExt h "MinT" hi,
    elemAt_elsExt h "MaxT" hi]

theorem emitRows_elsExt {n : Nat} {els els' : List WeatherElement}
    (h : elsExt n els els' = true) {nm : String} :
    ∀ (ts : List TimeSlot) (k : Nat), k + ts.length ≤ n →
      emitRows els' nm ts k = emitRows els nm ts k := by
  intro ts
  induction ts with
  | nil => intro k _; rfl
  | cons t rest ih =>
    intro k hk
    have hkn : k < n := by
      simp only [List.length_cons] at hk
      omega
    simp only [emitRows]
    rw [buildRow_elsExt h hkn, ih (k + 1) (by
      simp only [List.length_cons] at hk
      omega)]

theorem buildLocRows_locExt {loc loc' : Location}
    (h : locExt loc loc' = true) : buildLocRows loc' = buildLocRows loc := by
  simp only [locExt, Bool.and_eq_true, decide_eq_true_eq] at h
  obtain ⟨hname, hels⟩ := h
  unfold buildLocRows
  rcases dictLookup_elsExt _ _ hels "PoP" with ⟨h1, h2⟩ |
    ⟨ts, extra, h1, h2, hP, -⟩
  · rw [h1, h2]
  · have hex : extra = [] := hP rfl
    subst hex
    rw [h1, h2, List.append_nil, hname]
    have hn : ts.length = popLen loc := by simp [popLen, h1]
    exact emitRows_elsExt hels ts 0 (by omega)

theorem buildRows_locsExt :
    ∀ {ls ls' : List Location}, locsExt ls ls' = true →
      buildRows ls' = buildRows ls := by
  intro ls
  induction ls with
  | nil =>
    intro ls' h
    cases ls' with
    | nil => rfl
    | cons m ms => simp [locsExt] at h
  | cons l rest ih =>
    intro ls' h
    cases ls' with
    | nil => simp [locsExt] at h
    | cons m ms =>
      simp only [locsExt, Bool.and_eq_true] at h
      obtain ⟨h1, h2⟩ := h
      simp only [buildRows]
      rw [buildLocRows_locExt h1, ih h2]

/-- C10: two responses that agree except that some non-`PoP` elements of the
second carry additional slots at indices at or beyond the location's `PoP`
length produce identical `to_dataframe` results — the row loop reads only
indices below the `PoP` length, so such slots never influence the output. -/
theorem padding_beyond_pop_is_ignored (resp resp' : Response)
    (h : respExt resp resp' = true) :
    to_dataframe resp' = to_dataframe resp := by
  unfold respExt at h
  unfold to_dataframe
  rw [buildRows_locsExt h]

/-- Witness for C10: appending an extra `Wx` slot beyond the single-slot
`PoP` axis leaves the output unchanged. -/
theorem padding_beyond_pop_is_ignored_witness :
    to_dataframe respBExtraWx = to_dataframe respB :=
  padding_beyond_pop_is_ignored respB respBExtraWx (by decide)
